import Mathlib

/-!
Verification of the Map State & Route Animation Controller of the rdr2-map
repository (src/app/components/RDR2Map.tsx), against its natural-language
specification.  JavaScript runtime values are shallowly embedded as `JSVal`,
JavaScript numbers as `JSNum` (finite rationals plus NaN and the infinities),
and each effect / callback of the component as a pure state transformer over
`MapState`.
-/

/-- A JavaScript number: a finite value (modelled as a rational), NaN,
or one of the two infinities. -/
inductive JSNum where
  | val : ℚ → JSNum
  | nan : JSNum
  | inf : JSNum
  | negInf : JSNum
deriving DecidableEq, Repr

/-- `isNaN(x)` for a JavaScript number. -/
def JSNum.isNaN : JSNum → Bool
  | .nan => true
  | _ => false

/-- `Number.isFinite(x)` for a JavaScript number. -/
def JSNum.isFinite : JSNum → Bool
  | .val _ => true
  | _ => false

/-- Exact rational subtraction, written with the kernel-reducible `mkRat`
so that concrete runs of the embedding evaluate; `ratSub_eq_sub` below
proves it equal to `a - b`. -/
def ratSub (a b : ℚ) : ℚ := mkRat (a.num * b.den - b.num * a.den) (a.den * b.den)

/-- Rational absolute value via the kernel-reducible `Rat.blt` and
negation; `ratAbs_eq_abs` below proves it equal to `|a|`. -/
def ratAbs (a : ℚ) : ℚ := if Rat.blt a 0 then -a else a

/-- Subtraction of JavaScript numbers (`a - b`). -/
def JSNum.sub : JSNum → JSNum → JSNum
  | .nan, _ => .nan
  | _, .nan => .nan
  | .val a, .val b => .val (ratSub a b)
  | .inf, .inf => .nan
  | .negInf, .negInf => .nan
  | .inf, _ => .inf
  | .negInf, _ => .negInf
  | .val _, .inf => .negInf
  | .val _, .negInf => .inf

/-- `Math.abs` on a JavaScript number. -/
def JSNum.abs : JSNum → JSNum
  | .val a => .val (ratAbs a)
  | .nan => .nan
  | .inf => .inf
  | .negInf => .inf

/-- The `<` comparison on JavaScript numbers; any comparison with NaN is
false.  `Rat.blt` is the boolean form of `<` on ℚ (`blt_eq_decide_lt`
below). -/
def JSNum.lt : JSNum → JSNum → Bool
  | .nan, _ => false
  | _, .nan => false
  | .val a, .val b => Rat.blt a b
  | .val _, .inf => true
  | .val _, .negInf => false
  | .inf, _ => false
  | .negInf, .negInf => false
  | .negInf, _ => true

/-- A JavaScript runtime value, as far as the component inspects them:
numbers, strings, booleans, null, undefined, arrays and plain objects. -/
inductive JSVal where
  | num : JSNum → JSVal
  | str : String → JSVal
  | bool : Bool → JSVal
  | null : JSVal
  | undefined : JSVal
  | arr : List JSVal → JSVal
  | obj : List (String × JSVal) → JSVal

/-- Whether a value is `null` or `undefined` (the nullish values). -/
def JSVal.nullish : JSVal → Bool
  | .null => true
  | .undefined => true
  | _ => false

/-- Property access `v.k` on a value that is not null/undefined: an object
yields the stored field (or `undefined` when absent); any non-object
primitive yields `undefined`.  Every use in the embedding is guarded so that
the JS original cannot throw. -/
def JSVal.getF : JSVal → String → JSVal
  | .obj fs, k => match fs.lookup k with
    | some v => v
    | none => .undefined
  | _, _ => .undefined

/-- Optional chaining `v?.k`: `undefined` when `v` is nullish, plain access
otherwise. -/
def JSVal.getOpt (v : JSVal) (k : String) : JSVal :=
  if v.nullish then .undefined else v.getF k

/-- Index access `v[0]` (guarded against nullish receivers by its callers):
first element of an array (or `undefined` when empty), field "0" of an
object, `undefined` on primitives. -/
def JSVal.idx0 : JSVal → JSVal
  | .arr (x :: _) => x
  | .arr [] => .undefined
  | .obj fs => match fs.lookup "0" with
    | some v => v
    | none => .undefined
  | _ => .undefined

/-- JavaScript truthiness of a value. -/
def JSVal.truthy : JSVal → Bool
  | .num (.val a) => decide (a ≠ 0)
  | .num .nan => false
  | .num .inf => true
  | .num .negInf => true
  | .str s => decide (s ≠ "")
  | .bool b => b
  | .null => false
  | .undefined => false
  | .arr _ => true
  | .obj _ => true

/- ---------- Helpers (RDR2Map.tsx lines 43-54) ---------- -/

/-- `isLatLng` (line 43): `Array.isArray(p) && p.length === 2 &&
typeof p[0] === "number" && typeof p[1] === "number" && !isNaN(p[0]) &&
!isNaN(p[1])`.  The pattern below is exactly a two-element array whose
entries are numbers; note the source never tests finiteness. -/
def isLatLng : JSVal → Bool
  | .arr [.num a, .num b] => !a.isNaN && !b.isNaN
  | _ => false

/-- `sanitizeLatLngArray` (line 51): `[]` for non-arrays, else
`arr.filter(isLatLng)` (elements are kept as the values they are). -/
def sanitizeLatLngArray : JSVal → List JSVal
  | .arr xs => xs.filter isLatLng
  | _ => []

/- ---------- Component state (RDR2Map.tsx lines 124-156) ---------- -/

/-- The geolocation permission state (line 36). -/
inductive GeoState where
  | idle | prompt | granted | denied | unavailable
deriving DecidableEq, Repr

/-- POI categories (line 18). -/
inductive POIType where
  | hospital | gasStation | sheriff | bank | restaurant | shop
  | camp | hotel | saloon
deriving DecidableEq, Repr

/-- A parsed point of interest (line 29): identifier and name are kept as
the raw values the payload carried; the position is a validated pair of
numbers. -/
structure POI where
  id : JSVal
  type : POIType
  position : JSNum × JSNum
  name : JSVal

/-- The whole observable state of the `RDR2Map` component: the `useState`
cells (lines 124-152), the `useRef` cells driving the POI fetch
(lines 154-155), and the durable last-known-location store written by
`saveLastLocation`. -/
structure MapState where
  playerPos : Option (JSNum × JSNum)
  geoState : GeoState
  pois : List POI
  waypoint : Option (JSNum × JSNum)
  route : List JSVal
  drawnRoute : List JSVal
  recenterTarget : Option (JSNum × JSNum)
  recenterKey : Nat
  initialCenter : Option (JSNum × JSNum)
  activeTypes : List POIType
  showHelp : Bool
  routeDistance : Option JSNum
  routeDuration : Option JSNum
  fetchingPois : Bool
  lastPoiCenter : Option (JSNum × JSNum)
  lastLocationStore : Option (JSNum × JSNum)

/-- `clearRoute` (line 463): resets waypoint, route, drawn route and the
distance/duration readouts. -/
def clearRoute (s : MapState) : MapState :=
  { s with
    waypoint := none
    route := []
    drawnRoute := []
    routeDistance := none
    routeDuration := none }

/- ---------- Geolocation callbacks (RDR2Map.tsx lines 242-268) ---------- -/

/-- The success callback of `getCurrentPosition` (line 243): reads
`pos?.coords?.latitude` / `longitude`, accepts them when both are
non-NaN numbers, in which case it stores the position, recenters, bumps
the recenter key, persists the last location and marks `granted`;
otherwise it marks `unavailable`. -/
def geoSuccess (pos : JSVal) (s : MapState) : MapState :=
  let lat := (pos.getOpt "coords").getOpt "latitude"
  let lng := (pos.getOpt "coords").getOpt "longitude"
  match lat, lng with
  | .num a, .num b =>
    if a.isNaN || b.isNaN then
      { s with geoState := .unavailable }
    else
      { s with
        playerPos := some (a, b)
        initialCenter := some (a, b)
        recenterTarget := some (a, b)
        recenterKey := s.recenterKey + 1
        lastLocationStore := some (a, b)
        geoState := .granted }
  | _, _ => { s with geoState := .unavailable }

/-- Whether `err.code === 1` holds for the error value of the failure
callback (strict equality against the number `1`). -/
def errCodeIsOne : JSVal → Bool
  | .num n => n == .val 1
  | _ => false

/-- The failure callback of `getCurrentPosition` (line 263): `denied`
exactly when `err.code === 1`, else `unavailable`; nothing else changes. -/
def geoError (err : JSVal) (s : MapState) : MapState :=
  { s with
    geoState := if errCodeIsOne (err.getF "code") then .denied else .unavailable }

/- ---------- POI fetch effect (RDR2Map.tsx lines 273-361) ---------- -/

/-- The guard section of the POI `useEffect` (lines 273-297), as a state
transformer returning whether an outbound request was issued.  In source
order: no player position → no request; NaN component → no request;
previous queried center closer than 0.01 degrees on both axes → no
request; a fetch already in flight → no request; otherwise the in-flight
flag is raised and the queried center recorded before the request goes
out. -/
def poiFetchEffect (s : MapState) : MapState × Bool :=
  match s.playerPos with
  | none => (s, false)
  | some (lat, lon) =>
    if lat.isNaN || lon.isNaN then (s, false)
    else
      let nearPrev :=
        match s.lastPoiCenter with
        | some (plat, plon) =>
          ((plat.sub lat).abs.lt (.val (mkRat 1 100))) &&
          ((plon.sub lon).abs.lt (.val (mkRat 1 100)))
        | none => false
      if nearPrev then (s, false)
      else if s.fetchingPois then (s, false)
      else ({ s with fetchingPois := true, lastPoiCenter := some (lat, lon) }, true)

/-- Strict equality `v === "s"` of a value against a string literal. -/
def JSVal.strictEqStr : JSVal → String → Bool
  | .str t, s => t == s
  | _, _ => false

/-- One element of the Overpass payload (lines 325-351): `el.lat ??
el.center?.lat` and likewise for `lon`; both must be non-NaN numbers or
the element maps to `null`; the category is the first matching
`el.tags?.amenity` value in the fixed order, defaulting to shop.  A
nullish element makes `el.lat` throw, modelled as `Except.error`. -/
def parsePoiElem (el : JSVal) : Except Unit (Option POI) :=
  if el.nullish then .error ()
  else
    let plat := let a := el.getF "lat"
      if a.nullish then (el.getF "center").getOpt "lat" else a
    let plon := let a := el.getF "lon"
      if a.nullish then (el.getF "center").getOpt "lon" else a
    match plat, plon with
    | .num x, .num y =>
      if x.isNaN || y.isNaN then .ok none
      else
        let amenity := (el.getF "tags").getOpt "amenity"
        let t : POIType :=
          if amenity.strictEqStr "hospital" then .hospital
          else if amenity.strictEqStr "fuel" then .gasStation
          else if amenity.strictEqStr "police" then .sheriff
          else if amenity.strictEqStr "bank" then .bank
          else if amenity.strictEqStr "restaurant" then .restaurant
          else .shop
        .ok (some { id := el.getF "id", type := t, position := (x, y),
                    name := (el.getF "tags").getOpt "name" })
    | _, _ => .ok none

/-- `data.elements.map(...)` (line 324): the first throwing element aborts
the whole pass; otherwise the non-null results are collected in order
(the `.filter(item !== null)` step). -/
def parsePoiElems : List JSVal → Except Unit (List POI)
  | [] => .ok []
  | el :: rest =>
    match parsePoiElem el with
    | .error e => .error e
    | .ok p =>
      match parsePoiElems rest with
      | .error e => .error e
      | .ok ps => .ok (match p with | some poi => poi :: ps | none => ps)

/-- The POI fetch success continuation (lines 318-357): a falsy payload or
missing `elements` only clears the in-flight flag; a non-array `elements`
makes `.map` throw, landing in the `catch` which also only clears the
flag — likewise a nullish element inside the array.  Otherwise the parsed
list, truncated by `.slice(0, 500)`, replaces the POI collection
wholesale and the flag is cleared. -/
def poiResponse (data : JSVal) (s : MapState) : MapState :=
  if !data.truthy then { s with fetchingPois := false }
  else
    let elements := data.getF "elements"
    if !elements.truthy then { s with fetchingPois := false }
    else
      match elements with
      | .arr els =>
        match parsePoiElems els with
        | .error _ => { s with fetchingPois := false }
        | .ok parsed =>
          { s with pois := parsed.take 500, fetchingPois := false }
      | _ => { s with fetchingPois := false }

/-- The POI fetch failure continuation (line 358): the `catch` only clears
the in-flight flag; the queried center is not rolled back and the POI
collection is retained. -/
def poiCatch (s : MapState) : MapState :=
  { s with fetchingPois := false }

/- ---------- Routing effect (RDR2Map.tsx lines 365-414) ---------- -/

/-- The JavaScript `length` property as read by the coordinate guard
(its receiver is known truthy there): an array's element count, a
string's length, an object's stored "length" field (or `undefined` when
absent), and `undefined` on the remaining primitives. -/
def JSVal.lengthProp : JSVal → JSVal
  | .arr xs => .num (.val (xs.length : ℚ))
  | .str s => .num (.val (s.length : ℚ))
  | .obj fs => match fs.lookup "length" with
    | some v => v
    | none => .undefined
  | _ => .undefined

/-- Index access `v[0]` on a truthy receiver: array element, string
character (a one-character string), object field "0", `undefined`
otherwise or out of range. -/
def JSVal.at0 : JSVal → JSVal
  | .arr xs => match xs.get? 0 with
    | some v => v
    | none => .undefined
  | .str s => match s.toList.get? 0 with
    | some c => .str c.toString
    | none => .undefined
  | .obj fs => match fs.lookup "0" with
    | some v => v
    | none => .undefined
  | _ => .undefined

/-- Index access `v[1]`, exactly as `JSVal.at0` at index 1 / field "1". -/
def JSVal.at1 : JSVal → JSVal
  | .arr xs => match xs.get? 1 with
    | some v => v
    | none => .undefined
  | .str s => match s.toList.get? 1 with
    | some c => .str c.toString
    | none => .undefined
  | .obj fs => match fs.lookup "1" with
    | some v => v
    | none => .undefined
  | _ => .undefined

/-- Strict equality `v === q` of a value against a number literal. -/
def JSVal.strictEqNum : JSVal → ℚ → Bool
  | .num n, q => n == .val q
  | _, _ => false

/-- One provider coordinate entry (lines 389-401), following the source
guard check for check: `!coord` (falsy), `coord.length !== 2`,
`typeof coord[0] !== "number"`, `typeof coord[1] !== "number"`,
`isNaN(coord[0])`, `isNaN(coord[1])` — any failing check maps the entry
to `null`; otherwise the entry is transposed into the genuine array
`[coord[1], coord[0]]`.  The guard has no `Array.isArray` check, so
besides genuine two-element arrays it also accepts array-like objects
whose "length" field is the number 2 and whose "0"/"1" fields are
non-NaN numbers. -/
def routeCoordMap (coord : JSVal) : Option JSVal :=
  if !coord.truthy then none
  else if !(coord.lengthProp.strictEqNum 2) then none
  else match coord.at0, coord.at1 with
    | .num x, .num y =>
      if x.isNaN || y.isNaN then none
      else some (.arr [.num y, .num x])
    | _, _ => none

/-- Both values are non-NaN numbers (the typeof/isNaN part of the
coordinate guard, on the two index accesses). -/
def numPairOk : JSVal → JSVal → Bool
  | .num x, .num y => !x.isNaN && !y.isNaN
  | _, _ => false

/-- The acceptance predicate of the coordinate guard, as a boolean on the
raw entry: truthy, `length` strictly equal to the number 2, and both
index accesses non-NaN numbers. -/
def acceptedProviderPair (v : JSVal) : Bool :=
  v.truthy && v.lengthProp.strictEqNum 2 && numPairOk v.at0 v.at1

/-- The transposition `[coord[1], coord[0]]` of an accepted entry. -/
def transposeAccepted (v : JSVal) : JSVal := .arr [v.at1, v.at0]

/-- `d?.routes?.[0]` (line 384). -/
def routeObjOf (d : JSVal) : JSVal := (d.getOpt "routes").idx0

/-- `routeObj?.geometry?.coordinates` (line 385). -/
def routeCoordsOf (d : JSVal) : JSVal :=
  ((routeObjOf d).getOpt "geometry").getOpt "coordinates"

/-- The routing success continuation (lines 383-411): when
`d?.routes?.[0]?.geometry?.coordinates` is falsy the handler returns with
the state untouched; when it is truthy but not an array, `.map` throws
into `catch(console.error)` and the state is also untouched; otherwise
the filtered transposed list replaces the route, the drawn route is
reset, and distance/duration are stored exactly when the payload carries
them as numbers. -/
def routeResponse (d : JSVal) (s : MapState) : MapState :=
  let routeObj := routeObjOf d
  let coords := routeCoordsOf d
  if !coords.truthy then s
  else
    match coords with
    | .arr rawCoords =>
      let safeRoute := rawCoords.filterMap routeCoordMap
      { s with
        route := safeRoute
        drawnRoute := []
        routeDistance :=
          match routeObj.getF "distance" with
          | .num n => some n
          | _ => none
        routeDuration :=
          match routeObj.getF "duration" with
          | .num n => some n
          | _ => none }
    | _ => s

/-- The routing failure continuation (line 413): `catch(console.error)`
changes nothing. -/
def routeCatch (s : MapState) : MapState := s

/- ---------- Route animation effect (RDR2Map.tsx lines 418-443) ---------- -/

/-- The tick loop of the animation effect (lines 430-437): each tick
advances the index by 2; reaching or passing the clean route's length
halts without scheduling another tick; otherwise the sampled point is
appended and the next tick is scheduled.  The returned list is the
sequence of drawn-route values emitted by the ticks; the fuel argument
dominates the number of remaining ticks. -/
def animTicks (clean : List JSVal) : Nat → Nat → List JSVal → List (List JSVal)
  | 0, _, _ => []
  | fuel + 1, i, drawn =>
    if clean.length ≤ i + 2 then []
    else
      let drawn2 := drawn ++ [clean.getD (i + 2) .undefined]
      drawn2 :: animTicks clean fuel (i + 2) drawn2

/-- The whole animation effect for one route value (lines 418-443): the
sanitized route, when shorter than 2, forces the drawn route empty with
no tick scheduled; otherwise the drawn route is seeded with exactly the
first clean point and the tick loop runs to completion.  The result is
the full sequence of drawn-route values the effect emits. -/
def animTrace (route : List JSVal) : List (List JSVal) :=
  let clean := sanitizeLatLngArray (.arr route)
  if clean.length < 2 then [[]]
  else (clean.take 1) :: animTicks clean clean.length 0 (clean.take 1)

/- ---------- Spec-side definitions (for comparison with the code) ---------- -/

/-- The coordinate-validator contract in the spec's words: "true iff
candidate is a two-element numeric pair, both finite and not NaN"
(a finite JavaScript number is never NaN). -/
def specIsValidCoordinate : JSVal → Bool
  | .arr [.num a, .num b] => a.isFinite && b.isFinite
  | _ => false

/-- The spec's fixed priority order of amenity tags and the category each
maps to. -/
def amenityPriority : List (String × POIType) :=
  [("hospital", .hospital), ("fuel", .gasStation), ("police", .sheriff),
   ("bank", .bank), ("restaurant", .restaurant)]

/-- The spec-side classifier: the first matching amenity tag in
`amenityPriority` wins; the default category is shop. -/
def specClassify (amenity : JSVal) : POIType :=
  match amenityPriority.find? (fun kv => amenity.strictEqStr kv.1) with
  | some kv => kv.2
  | none => .shop

/-- Transposition of a two-element pair (longitude-first to
latitude-first); other values are untouched. -/
def transposePair : JSVal → JSVal
  | .arr [a, b] => .arr [b, a]
  | v => v

/-- The value stored for an optionally-absent numeric scalar: the number
itself exactly when the payload carries a number, absent otherwise. -/
def jsNumberOpt : JSVal → Option JSNum
  | .num n => some n
  | _ => none

/-- Abbreviation for a finite numeric JSVal. -/
def qv (n : ℚ) : JSVal := .num (.val n)

/-- Abbreviation for a latitude/longitude pair value. -/
def ptv (a b : ℚ) : JSVal := .arr [qv a, qv b]

/-- A demonstration state used by concrete witnesses: a live route of two
points with distance/duration readouts, one stored POI, and no query in
flight. -/
def demoState : MapState where
  playerPos := none
  geoState := .idle
  pois := [{ id := qv 9, type := .bank, position := (.val 7, .val 8), name := .undefined }]
  waypoint := some (.val 1, .val 1)
  route := [ptv 1 1, ptv 2 2]
  drawnRoute := [ptv 1 1]
  recenterTarget := none
  recenterKey := 0
  initialCenter := none
  activeTypes := [.hospital]
  showHelp := true
  routeDistance := some (.val 9)
  routeDuration := some (.val 11)
  fetchingPois := false
  lastPoiCenter := none
  lastLocationStore := none

/-- A routing payload whose coordinate list holds exactly one valid
(longitude-first) pair `[3, 5]` and a numeric distance, with no
duration. -/
def demoRoutePayload1pt : JSVal :=
  .obj [("routes", .arr [.obj
    [("geometry", .obj [("coordinates", .arr [ptv 3 5])]),
     ("distance", qv 100)]])]

/-- A routing payload mixing accepted entries with junk: a string, a pair
with NaN, a three-element list, a falsy entry and a wrong-length
array-like object appear between the accepted entries (two genuine pairs
and one array-like object). -/
def demoRoutePayloadMixed : JSVal :=
  .obj [("routes", .arr [.obj
    [("geometry", .obj [("coordinates", .arr
      [ptv 3 5, .str "junk", .arr [.num .nan, qv 2], .arr [qv 1, qv 2, qv 3],
       .null, .obj [("length", qv 2), ("0", qv 7), ("1", qv 8)],
       .obj [("length", qv 3), ("0", qv 1), ("1", qv 2)], ptv 4 6])]),
     ("distance", qv 2500), ("duration", .str "soon")]])]

/-- A routing payload whose coordinate list holds a single array-like
object entry: truthy, `length` strictly the number 2, numeric non-NaN
"0" and "1" fields — but not an array, hence not a pair. -/
def demoRoutePayloadObj : JSVal :=
  .obj [("routes", .arr [.obj
    [("geometry", .obj [("coordinates", .arr
      [.obj [("length", qv 2), ("0", qv 3), ("1", qv 5)]])])]])]

/-- An Overpass element carrying a node coordinate and a fuel amenity. -/
def demoPoiElemFuel : JSVal :=
  .obj [("id", qv 1), ("lat", qv 10), ("lon", qv 20),
        ("tags", .obj [("amenity", .str "fuel"), ("name", .str "pump")])]

/-- An Overpass way element carrying only a center coordinate and a shop
tag (no amenity). -/
def demoPoiElemCenter : JSVal :=
  .obj [("id", qv 2), ("center", .obj [("lat", qv 30), ("lon", qv 40)]),
        ("tags", .obj [("shop", .str "bakery")])]

/-- An Overpass element whose coordinate fails validation. -/
def demoPoiElemBad : JSVal := .obj [("id", qv 3), ("lat", .str "x")]

/-- A geolocation success value with a valid coordinate. -/
def demoGeoPos : JSVal :=
  .obj [("coords", .obj [("latitude", qv 5), ("longitude", qv 6)])]

/- ====================== Theorems ====================== -/

/-- `ratSub` is exact rational subtraction. -/
theorem ratSub_eq_sub (a b : ℚ) : ratSub a b = a - b := (Rat.sub_def' a b).symm

/-- `ratAbs` is the rational absolute value. -/
theorem ratAbs_eq_abs (a : ℚ) : ratAbs a = |a| := by
  unfold ratAbs
  rcases lt_or_le a 0 with h | h
  · rw [if_pos (show a.blt 0 = true from h), abs_of_neg h]
  · rw [if_neg (show ¬ a.blt 0 = true from not_lt.mpr h), abs_of_nonneg h]

/-- `Rat.blt` is the boolean form of `<` on ℚ. -/
theorem blt_eq_decide_lt (a b : ℚ) : Rat.blt a b = decide (a < b) := by
  rcases lt_or_le a b with h | h
  · rw [decide_eq_true h]; exact h
  · rw [decide_eq_false (not_lt.mpr h)]
    exact Bool.not_eq_true _ ▸ (show ¬ a.blt b = true from not_lt.mpr h)

/-- A JavaScript number fails `isNaN` exactly when it is not NaN. -/
theorem JSNum.isNaN_eq_false_iff (n : JSNum) : n.isNaN = false ↔ n ≠ .nan := by
  cases n <;> simp [JSNum.isNaN]

/-- C7: the sequence sanitizer is idempotent (sanitizing an
already-sanitized sequence yields the same sequence), order-preserving
(its output is a sublist of the input sequence, in the same order), and
its output length never exceeds its input length. -/
theorem c7_sanitize_idempotent_order_preserving :
    (∀ v : JSVal, sanitizeLatLngArray (.arr (sanitizeLatLngArray v)) = sanitizeLatLngArray v)
    ∧ (∀ xs : List JSVal, (sanitizeLatLngArray (.arr xs)).Sublist xs)
    ∧ (∀ xs : List JSVal, (sanitizeLatLngArray (.arr xs)).length ≤ xs.length) := by
  refine ⟨?_, ?_, ?_⟩
  · intro v
    cases v <;> simp [sanitizeLatLngArray, List.filter_filter]
  · intro xs
    exact List.filter_sublist xs
  · intro xs
    exact List.length_filter_le _ xs

/-- C2 counterexample: the source validator accepts `[Infinity, 0]`, a
pair containing a non-finite number, which the claim says must be
rejected (`specIsValidCoordinate` is the claim's contract, requiring
finiteness). -/
theorem c2_counterexample_infinity_accepted :
    isLatLng (.arr [.num .inf, qv 0]) = true ∧
    specIsValidCoordinate (.arr [.num .inf, qv 0]) = false :=
  ⟨rfl, rfl⟩

/-- C2 amended: the coordinate validator returns true if and only if the
value is a two-element pair of numbers neither of which is NaN; wrong
arity, non-numeric elements and NaN are rejected, but non-finite numbers
such as Infinity are accepted. -/
theorem c2_amended_validator_characterization :
    ∀ v : JSVal, isLatLng v = true ↔
      ∃ a b, v = .arr [.num a, .num b] ∧ a ≠ JSNum.nan ∧ b ≠ JSNum.nan := by
  intro v
  rcases v with n | s | b | _ | _ | xs | fs
  case num => simp [isLatLng]
  case str => simp [isLatLng]
  case bool => simp [isLatLng]
  case null => simp [isLatLng]
  case undefined => simp [isLatLng]
  case obj => simp [isLatLng]
  case arr =>
    rcases xs with _ | ⟨x, _ | ⟨y, _ | ⟨z, rest⟩⟩⟩
    · simp [isLatLng]
    · simp [isLatLng]
    · cases x <;> cases y <;>
        simp only [isLatLng, Bool.and_eq_true, Bool.not_eq_true',
          JSNum.isNaN_eq_false_iff, JSVal.arr.injEq, List.cons.injEq,
          and_true, JSVal.num.injEq, iff_false, not_exists, false_iff,
          Bool.false_eq_true, ne_eq] <;>
        first
        | (intro a b hab; simp at hab)
        | (constructor
           · rintro ⟨h1, h2⟩
             exact ⟨_, _, ⟨rfl, rfl⟩, h1, h2⟩
           · rintro ⟨a, b, ⟨rfl, rfl⟩, h1, h2⟩
             exact ⟨h1, h2⟩)
    · simp [isLatLng]

/-- C3: for the route `[[0,0],[0,1],[0,2],[0,3],[0,4]]` the animator seeds
the drawn route with exactly the first point and then emits
`[[0,0]]`, `[[0,0],[0,2]]`, `[[0,0],[0,2],[0,4]]` (stride 2), after which
it halts — the emitted trace is exactly these three states, with no
further tick (index 6 has reached the length 5). -/
theorem c3_animation_trace_stride_two :
    animTrace [ptv 0 0, ptv 0 1, ptv 0 2, ptv 0 3, ptv 0 4] =
      [[ptv 0 0], [ptv 0 0, ptv 0 2], [ptv 0 0, ptv 0 2, ptv 0 4]] := rfl

/-- C8: `clearRoute` clears the waypoint, the route, the drawn route and
the distance/duration readouts in one state transformation, and leaves
every other state field — player position, POI collection, geolocation
state, category filters, recenter target and token, initial center, help
flag, in-flight flag, last queried center and the location store —
unchanged. -/
theorem c8_clearRoute_resets_and_frames :
    ∀ s : MapState,
      (clearRoute s).waypoint = none ∧
      (clearRoute s).route = [] ∧
      (clearRoute s).drawnRoute = [] ∧
      (clearRoute s).routeDistance = none ∧
      (clearRoute s).routeDuration = none ∧
      (clearRoute s).playerPos = s.playerPos ∧
      (clearRoute s).geoState = s.geoState ∧
      (clearRoute s).pois = s.pois ∧
      (clearRoute s).recenterTarget = s.recenterTarget ∧
      (clearRoute s).recenterKey = s.recenterKey ∧
      (clearRoute s).initialCenter = s.initialCenter ∧
      (clearRoute s).activeTypes = s.activeTypes ∧
      (clearRoute s).showHelp = s.showHelp ∧
      (clearRoute s).fetchingPois = s.fetchingPois ∧
      (clearRoute s).lastPoiCenter = s.lastPoiCenter ∧
      (clearRoute s).lastLocationStore = s.lastLocationStore :=
  fun _ => ⟨rfl, rfl, rfl, rfl, rfl, rfl, rfl, rfl, rfl, rfl, rfl, rfl, rfl, rfl, rfl, rfl⟩

/-- A provider entry survives the routing filter exactly when the guard
accepts it, and then it maps to its transposition. -/
theorem routeCoordMap_eq_accepted (v : JSVal) :
    routeCoordMap v = if acceptedProviderPair v then some (transposeAccepted v) else none := by
  unfold routeCoordMap acceptedProviderPair transposeAccepted
  cases ht : v.truthy
  · simp [ht]
  · cases hL : v.lengthProp.strictEqNum 2
    · simp [ht, hL]
    · rcases h0 : v.at0 with n0 | s0 | b0 | _ | _ | a0 | f0 <;>
      rcases h1 : v.at1 with n1 | s1 | b1 | _ | _ | a1 | f1 <;>
        simp [ht, hL, h0, h1, numPairOk] <;>
        (cases hx : n0.isNaN <;> cases hy : n1.isNaN <;> simp [hx, hy])

/-- The routing filter is the transposition of exactly the accepted
entries, in provider order. -/
theorem filterMap_routeCoordMap (xs : List JSVal) :
    xs.filterMap routeCoordMap = (xs.filter acceptedProviderPair).map transposeAccepted := by
  induction xs with
  | nil => rfl
  | cons x xs ih =>
    rw [List.filterMap_cons, List.filter_cons, routeCoordMap_eq_accepted]
    cases h : acceptedProviderPair x <;> simp [h, ih]

/-- A value passing `isLatLng` is a genuine two-element array of non-NaN
numbers. -/
theorem isLatLng_eq_true_elim (v : JSVal) (h : isLatLng v = true) :
    ∃ a b, v = .arr [.num a, .num b] ∧ a.isNaN = false ∧ b.isNaN = false := by
  rcases v with n | st | b | _ | _ | xs | fs
  case arr =>
    rcases xs with _ | ⟨x, _ | ⟨y, _ | ⟨z, rest⟩⟩⟩
    · simp [isLatLng] at h
    · rcases x with a | sx | bx | _ | _ | ax | fx <;> simp [isLatLng] at h
    · rcases x with a | sx | bx | _ | _ | ax | fx <;>
      rcases y with b | sy | by2 | _ | _ | ay | fy <;>
        simp [isLatLng, Bool.not_eq_true'] at h
      exact ⟨_, _, rfl, h.1, h.2⟩
    · rcases x with a | sx | bx | _ | _ | ax | fx <;>
      rcases y with b | sy | by2 | _ | _ | ay | fy <;>
        simp [isLatLng] at h
  all_goals simp [isLatLng] at h

/-- The guard accepts every genuine validated pair and transposes it as a
pair. -/
theorem acceptedProviderPair_of_isLatLng (v : JSVal) (h : isLatLng v = true) :
    acceptedProviderPair v = true ∧ transposeAccepted v = transposePair v := by
  obtain ⟨a, b, rfl, ha, hb⟩ := isLatLng_eq_true_elim v h
  constructor
  · simp [acceptedProviderPair, numPairOk, JSVal.truthy, JSVal.at0, JSVal.at1, ha, hb,
      show (JSVal.lengthProp (.arr [.num a, .num b])).strictEqNum 2 = true from rfl]
  · rfl

/-- Elimination for `numPairOk`: both arguments are non-NaN numbers. -/
theorem numPairOk_eq_true_elim (u w : JSVal) (h : numPairOk u w = true) :
    ∃ x y, u = .num x ∧ w = .num y ∧ x.isNaN = false ∧ y.isNaN = false := by
  rcases u with x | sx | bx | _ | _ | ax | fx <;>
  rcases w with y | sy | by2 | _ | _ | ay | fy <;>
    simp [numPairOk, Bool.not_eq_true'] at h
  exact ⟨_, _, rfl, rfl, h.1, h.2⟩

/-- An array's length property strictly equals the number 2 exactly when
the list has two elements. -/
theorem lengthProp_arr_strictEqNum_two (xs : List JSVal) :
    (JSVal.lengthProp (.arr xs)).strictEqNum 2 = decide (xs.length = 2) := by
  by_cases hx : xs.length = 2
  · simp only [JSVal.lengthProp, JSVal.strictEqNum]
    rw [hx]
    rfl
  · simp only [JSVal.lengthProp, JSVal.strictEqNum]
    rw [decide_eq_false hx]
    refine beq_eq_false_iff_ne.mpr fun hc => hx ?_
    have hq := JSNum.val.inj hc
    exact_mod_cast hq

/-- Everything the guard accepts is either a genuine validated pair or an
array-like object: a "length" field that is the number 2 and non-NaN
numeric "0"/"1" fields, transposed into a genuine latitude-first array. -/
theorem acceptedProviderPair_elim (v : JSVal) (h : acceptedProviderPair v = true) :
    isLatLng v = true ∨
      ∃ fs x y, v = .obj fs
        ∧ fs.lookup "length" = some (.num (.val 2))
        ∧ fs.lookup "0" = some (.num x)
        ∧ fs.lookup "1" = some (.num y)
        ∧ x.isNaN = false ∧ y.isNaN = false
        ∧ transposeAccepted v = .arr [.num y, .num x] := by
  simp only [acceptedProviderPair, Bool.and_eq_true] at h
  obtain ⟨⟨htr, hLen⟩, hM⟩ := h
  obtain ⟨x, y, hx, hy, hxn, hyn⟩ := numPairOk_eq_true_elim _ _ hM
  rcases v with n | st | b | _ | _ | xs | fs
  · exact absurd hLen (by simp [JSVal.lengthProp, JSVal.strictEqNum])
  · refine absurd hx ?_
    rcases hg : st.data[0]? with _ | c <;> simp [JSVal.at0, String.toList, hg]
  · exact absurd hLen (by simp [JSVal.lengthProp, JSVal.strictEqNum])
  · exact absurd htr (by simp [JSVal.truthy])
  · exact absurd htr (by simp [JSVal.truthy])
  · left
    rcases xs with _ | ⟨a0, _ | ⟨a1, _ | ⟨a2, rest⟩⟩⟩
    · exact absurd hLen (by
        simp [show (JSVal.lengthProp (.arr ([] : List JSVal))).strictEqNum 2 = false from rfl])
    · exact absurd hLen (by
        simp [show (JSVal.lengthProp (.arr [a0])).strictEqNum 2 = false from rfl])
    · have ha0 : a0 = .num x := by
        have e : (JSVal.arr [a0, a1]).at0 = a0 := rfl
        rw [← e]
        exact hx
      have ha1 : a1 = .num y := by
        have e : (JSVal.arr [a0, a1]).at1 = a1 := rfl
        rw [← e]
        exact hy
      subst ha0
      subst ha1
      simp [isLatLng, hxn, hyn]
    · refine absurd hLen ?_
      simp only [lengthProp_arr_strictEqNum_two, decide_eq_true_eq, List.length_cons]
      omega
  · right
    have h0 : fs.lookup "0" = some (.num x) := by
      rcases hk : fs.lookup "0" with _ | v0
      · exact absurd hx (by simp [JSVal.at0, hk])
      · have e : (JSVal.obj fs).at0 = v0 := by simp [JSVal.at0, hk]
        rw [e] at hx
        rw [hx]
    have h1 : fs.lookup "1" = some (.num y) := by
      rcases hk : fs.lookup "1" with _ | v1
      · exact absurd hy (by simp [JSVal.at1, hk])
      · have e : (JSVal.obj fs).at1 = v1 := by simp [JSVal.at1, hk]
        rw [e] at hy
        rw [hy]
    have hL : fs.lookup "length" = some (.num (.val 2)) := by
      rcases hk : fs.lookup "length" with _ | l
      · exact absurd hLen (by simp [JSVal.lengthProp, hk, JSVal.strictEqNum])
      · have e : JSVal.lengthProp (.obj fs) = l := by simp [JSVal.lengthProp, hk]
        rw [e] at hLen
        rcases l with nl | sl | bl | _ | _ | al | fl <;>
          simp [JSVal.strictEqNum] at hLen
        rw [hLen]
    exact ⟨fs, x, y, rfl, hL, h0, h1, hxn, hyn,
      by simp [transposeAccepted, hx, hy]⟩

/-- When the payload's coordinate chain yields an array, the handler
replaces the route with the filtered transposed list, resets the drawn
route, and stores distance/duration exactly when numeric. -/
theorem routeResponse_of_coords_arr (d : JSVal) (s : MapState) (xs : List JSVal)
    (h : routeCoordsOf d = .arr xs) :
    routeResponse d s = { s with
      route := xs.filterMap routeCoordMap
      drawnRoute := []
      routeDistance := jsNumberOpt ((routeObjOf d).getF "distance")
      routeDuration := jsNumberOpt ((routeObjOf d).getF "duration") } := by
  unfold routeResponse
  rw [h]
  simp only [JSVal.truthy, Bool.not_true, Bool.false_eq_true, if_false]
  have hdist : (match (routeObjOf d).getF "distance" with
      | JSVal.num n => some n | _ => none) = jsNumberOpt ((routeObjOf d).getF "distance") := by
    cases (routeObjOf d).getF "distance" <;> rfl
  have hdur : (match (routeObjOf d).getF "duration" with
      | JSVal.num n => some n | _ => none) = jsNumberOpt ((routeObjOf d).getF "duration") := by
    cases (routeObjOf d).getF "duration" <;> rfl
  rw [hdist, hdur]

/-- When the payload's coordinate chain yields anything that is not an
array — absent routes, absent geometry, absent or falsy coordinates, or
a truthy non-array — the handler leaves the state untouched. -/
theorem routeResponse_of_coords_not_arr (d : JSVal) (s : MapState)
    (h : ∀ xs : List JSVal, routeCoordsOf d ≠ .arr xs) :
    routeResponse d s = s := by
  rcases hc : routeCoordsOf d with n | st | b | _ | _ | xs | fs <;>
    first
    | exact absurd hc (h _)
    | (simp only [routeResponse, hc]
       first
       | rfl
       | (split <;> rfl))

/-- C5 counterexample: the claim says every entry that is not a
two-element pair of non-NaN numbers is discarded; but the source guard
has no `Array.isArray` check, so the array-like object
`{length: 2, "0": 3, "1": 5}` — which is not a pair (`isLatLng`
rejects it) and which the claim would have discarded, leaving no stored
point — is accepted and its transposition `[5, 3]` is stored. -/
theorem c5_counterexample_arraylike_object_accepted :
    isLatLng (.obj [("length", qv 2), ("0", qv 3), ("1", qv 5)]) = false
    ∧ routeCoordsOf demoRoutePayloadObj
        = .arr [.obj [("length", qv 2), ("0", qv 3), ("1", qv 5)]]
    ∧ (([.obj [("length", qv 2), ("0", qv 3), ("1", qv 5)]] : List JSVal).filter
        isLatLng).map transposePair = []
    ∧ (routeResponse demoRoutePayloadObj demoState).route = [ptv 5 3]
    ∧ (routeResponse demoRoutePayloadObj demoState).route
        ≠ (([.obj [("length", qv 2), ("0", qv 3), ("1", qv 5)]] : List JSVal).filter
            isLatLng).map transposePair := by
  refine ⟨rfl, rfl, rfl, rfl, ?_⟩
  intro h
  have h2 : ([ptv 5 3] : List JSVal) = [] :=
    ((rfl : (routeResponse demoRoutePayloadObj demoState).route
        = [ptv 5 3]).symm.trans h).trans rfl
  have := congrArg List.length h2
  simp at this

/-- C5 amended: on a successful routing response (the coordinate chain
yields an array `raw`), the stored route is the transposition of exactly
the entries the source guard accepts, in provider order (the accepted
entries form a sublist of `raw`, everything else is discarded); every
genuine two-element pair of non-NaN numbers is accepted and transposed
from longitude-first to latitude-first; the only other accepted entries
are array-like objects (a "length" field that is the number 2 and
non-NaN numeric "0"/"1" fields), likewise transposed into genuine
latitude-first arrays; and distance and duration are each stored only
when the payload carries them as numbers, otherwise stored as absent. -/
theorem c5_amended_routing_accepts_arraylike_pairs
    (d : JSVal) (s : MapState) (raw : List JSVal)
    (h : routeCoordsOf d = .arr raw) :
    (routeResponse d s).route = (raw.filter acceptedProviderPair).map transposeAccepted
    ∧ (raw.filter acceptedProviderPair).Sublist raw
    ∧ (∀ p ∈ (routeResponse d s).route,
        ∃ v ∈ raw, acceptedProviderPair v = true ∧ p = transposeAccepted v)
    ∧ (∀ v : JSVal, isLatLng v = true →
        acceptedProviderPair v = true ∧ transposeAccepted v = transposePair v)
    ∧ (∀ v : JSVal, acceptedProviderPair v = true →
        isLatLng v = true ∨
          ∃ fs x y, v = .obj fs
            ∧ fs.lookup "length" = some (.num (.val 2))
            ∧ fs.lookup "0" = some (.num x)
            ∧ fs.lookup "1" = some (.num y)
            ∧ x.isNaN = false ∧ y.isNaN = false
            ∧ transposeAccepted v = .arr [.num y, .num x])
    ∧ (routeResponse d s).routeDistance = jsNumberOpt ((routeObjOf d).getF "distance")
    ∧ (routeResponse d s).routeDuration = jsNumberOpt ((routeObjOf d).getF "duration") := by
  rw [routeResponse_of_coords_arr d s raw h]
  refine ⟨filterMap_routeCoordMap raw, List.filter_sublist raw, ?_,
    acceptedProviderPair_of_isLatLng, acceptedProviderPair_elim, rfl, rfl⟩
  intro p hp
  rw [filterMap_routeCoordMap raw] at hp
  rcases List.mem_map.mp hp with ⟨v, hv, rfl⟩
  rcases List.mem_filter.mp hv with ⟨hvr, hva⟩
  exact ⟨v, hvr, hva, rfl⟩

/-- C5 witness: the mixed demonstration payload keeps exactly the two
genuine pairs and the well-formed array-like object, transposed and in
order, discards the string, the NaN pair, the three-element list, the
falsy entry and the wrong-length object, stores the numeric distance and
drops the non-numeric duration. -/
theorem c5_witness :
    routeCoordsOf demoRoutePayloadMixed =
      .arr [ptv 3 5, .str "junk", .arr [.num .nan, qv 2], .arr [qv 1, qv 2, qv 3],
        .null, .obj [("length", qv 2), ("0", qv 7), ("1", qv 8)],
        .obj [("length", qv 3), ("0", qv 1), ("1", qv 2)], ptv 4 6]
    ∧ (routeResponse demoRoutePayloadMixed demoState).route = [ptv 5 3, ptv 8 7, ptv 6 4]
    ∧ (routeResponse demoRoutePayloadMixed demoState).routeDistance = some (.val 2500)
    ∧ (routeResponse demoRoutePayloadMixed demoState).routeDuration = none := by
  refine ⟨rfl, ?_⟩
  have h := c5_amended_routing_accepts_arraylike_pairs demoRoutePayloadMixed demoState
    [ptv 3 5, .str "junk", .arr [.num .nan, qv 2], .arr [qv 1, qv 2, qv 3],
     .null, .obj [("length", qv 2), ("0", qv 7), ("1", qv 8)],
     .obj [("length", qv 3), ("0", qv 1), ("1", qv 2)], ptv 4 6] rfl
  exact ⟨h.1.trans rfl, h.2.2.2.2.2.1.trans rfl, h.2.2.2.2.2.2.trans rfl⟩

/-- C1 counterexample: the claim says a payload with fewer than 2 valid
points leaves the stored route, drawn route and readouts unchanged; but
for the demonstration payload with exactly one valid point the handler
replaces the two-point route with a one-point route, clears the drawn
route and overwrites the readouts. -/
theorem c1_counterexample_short_payload_replaces_route :
    (([ptv 3 5] : List JSVal).countP (fun p => isLatLng p) = 1)
    ∧ routeCoordsOf demoRoutePayload1pt = .arr [ptv 3 5]
    ∧ demoState.route = [ptv 1 1, ptv 2 2]
    ∧ (routeResponse demoRoutePayload1pt demoState).route = [ptv 5 3]
    ∧ (routeResponse demoRoutePayload1pt demoState).route ≠ demoState.route
    ∧ (routeResponse demoRoutePayload1pt demoState).drawnRoute ≠ demoState.drawnRoute
    ∧ (routeResponse demoRoutePayload1pt demoState).routeDistance ≠ demoState.routeDistance := by
  refine ⟨rfl, rfl, rfl, rfl, ?_, ?_, ?_⟩
  · intro h
    have h2 : ([ptv 5 3] : List JSVal) = [ptv 1 1, ptv 2 2] :=
      ((rfl : (routeResponse demoRoutePayload1pt demoState).route
          = [ptv 5 3]).symm.trans h).trans rfl
    have := congrArg List.length h2
    simp at this
  · intro h
    have h2 : ([] : List JSVal) = [ptv 1 1] :=
      ((rfl : (routeResponse demoRoutePayload1pt demoState).drawnRoute
          = []).symm.trans h).trans rfl
    have := congrArg List.length h2
    simp at this
  · intro h
    have h2 : (some (JSNum.val 100) : Option JSNum) = some (.val 9) :=
      ((rfl : (routeResponse demoRoutePayload1pt demoState).routeDistance
          = some (.val 100)).symm.trans h).trans rfl
    exact absurd h2 (by decide)

/-- C1 amended: a network error, or any payload whose
`routes[0].geometry.coordinates` chain does not yield an array (missing
routes, missing geometry, missing or falsy coordinates, truthy
non-array), leaves the whole state — route, drawn route, distance and
duration included — unchanged; but every payload whose chain yields an
array replaces the route with the transposition of the entries the
per-coordinate guard accepts (genuine two-element pairs of non-NaN
numbers, and — the guard lacking `Array.isArray` — array-like objects
with numeric length 2 and numeric "0"/"1" fields) even when
fewer than 2 points survive, resets the drawn route, and overwrites
distance and duration. -/
theorem c1_amended_routing_failure_preserves_state :
    (∀ s : MapState, routeCatch s = s)
    ∧ (∀ (d : JSVal) (s : MapState),
        (∀ xs : List JSVal, routeCoordsOf d ≠ .arr xs) → routeResponse d s = s)
    ∧ (∀ (d : JSVal) (s : MapState) (xs : List JSVal),
        routeCoordsOf d = .arr xs →
        routeResponse d s = { s with
          route := xs.filterMap routeCoordMap
          drawnRoute := []
          routeDistance := jsNumberOpt ((routeObjOf d).getF "distance")
          routeDuration := jsNumberOpt ((routeObjOf d).getF "duration") }) :=
  ⟨fun _ => rfl, routeResponse_of_coords_not_arr, routeResponse_of_coords_arr⟩

/-- C1 witness: a network error and a payload with no routes list leave
the demonstration state untouched, while the one-point payload rewrites
the route. -/
theorem c1_witness :
    routeCatch demoState = demoState
    ∧ routeResponse .null demoState = demoState
    ∧ routeResponse demoRoutePayload1pt demoState =
        { demoState with
          route := [ptv 5 3]
          drawnRoute := []
          routeDistance := some (.val 100)
          routeDuration := none } := by
  refine ⟨c1_amended_routing_failure_preserves_state.1 demoState, ?_, ?_⟩
  · refine c1_amended_routing_failure_preserves_state.2.1 .null demoState ?_
    intro xs h
    rw [show routeCoordsOf .null = .undefined from rfl] at h
    exact JSVal.noConfusion h
  · exact (c1_amended_routing_failure_preserves_state.2.2 demoRoutePayload1pt demoState
      [ptv 3 5] rfl).trans rfl

/-- The displacement threshold constant of the embedding is 0.01. -/
theorem mkRat_one_hundredth : (mkRat 1 100 : ℚ) = 1 / 100 := by
  rw [Rat.mkRat_eq_divInt, Rat.divInt_eq_div]
  norm_num

/-- The code's threshold test on finite numbers is the rational
comparison `|prev - new| < 1/100`. -/
theorem jsnum_threshold_eq (p x : ℚ) :
    ((JSNum.val p).sub (.val x)).abs.lt (.val (mkRat 1 100)) = decide (|p - x| < 1 / 100) := by
  show Rat.blt (ratAbs (ratSub p x)) (mkRat 1 100) = decide (|p - x| < 1 / 100)
  rw [ratSub_eq_sub, ratAbs_eq_abs, blt_eq_decide_lt, mkRat_one_hundredth]

/-- A fetch already in flight suppresses the POI query: the effect leaves
the state unchanged and issues nothing, whatever the position. -/
theorem poiFetchEffect_inflight (s : MapState) (h : s.fetchingPois = true) :
    poiFetchEffect s = (s, false) := by
  rcases hp : s.playerPos with _ | ⟨lat, lon⟩
  · simp [poiFetchEffect, hp]
  · simp [poiFetchEffect, hp, h]

/-- A position within the 0.01-degree threshold of the last queried center
on both axes suppresses the POI query. -/
theorem poiFetchEffect_near_prev (s : MapState) (pla plo la lo : ℚ)
    (hc : s.lastPoiCenter = some (.val pla, .val plo))
    (hp : s.playerPos = some (.val la, .val lo))
    (h1 : |pla - la| < 1 / 100) (h2 : |plo - lo| < 1 / 100) :
    poiFetchEffect s = (s, false) := by
  have e1 : ((JSNum.val pla).sub (.val la)).abs.lt (.val (mkRat 1 100)) = true := by
    rw [jsnum_threshold_eq]; exact decide_eq_true h1
  have e2 : ((JSNum.val plo).sub (.val lo)).abs.lt (.val (mkRat 1 100)) = true := by
    rw [jsnum_threshold_eq]; exact decide_eq_true h2
  simp [poiFetchEffect, hp, hc, JSNum.isNaN, e1, e2]

/-- When the effect issues a request, the in-flight flag was down, and the
new state only raises it and records the queried center (which equals the
player position), before the request goes out. -/
theorem poiFetchEffect_issued (s s' : MapState) (h : poiFetchEffect s = (s', true)) :
    s.fetchingPois = false ∧ ∃ lat lon, s.playerPos = some (lat, lon) ∧
      s' = { s with fetchingPois := true, lastPoiCenter := some (lat, lon) } := by
  rcases hp : s.playerPos with _ | ⟨lat, lon⟩
  · rw [show poiFetchEffect s = (s, false) from by simp [poiFetchEffect, hp]] at h
    exact absurd (congrArg Prod.snd h) (by simp)
  · simp only [poiFetchEffect, hp] at h
    split at h
    · exact absurd (congrArg Prod.snd h) (by simp)
    · split at h
      · exact absurd (congrArg Prod.snd h) (by simp)
      · split at h
        · exact absurd (congrArg Prod.snd h) (by simp)
        · rename_i hfetch
          refine ⟨by simpa using hfetch, lat, lon, rfl, ?_⟩
          exact (congrArg Prod.fst h).symm

/-- A POI payload without a truthy `elements` field only clears the
in-flight flag. -/
theorem poiResponse_no_elements (data : JSVal) (s : MapState)
    (h : (data.getF "elements").truthy = false) :
    poiResponse data s = { s with fetchingPois := false } := by
  unfold poiResponse
  cases hd : data.truthy
  · simp
  · simp [h]

/-- C4: the POI fetcher is single-flight and debounced — (i) no query is
issued while one is in flight (the effect is a no-op then); (ii) no query
is issued for a position within 0.01 degrees of the last queried center
on both axes; (iii) after an issued query, a second position update
within the threshold of the first — with the first query still in
flight — issues nothing and changes nothing: two rapid updates produce
exactly one outbound request. -/
theorem c4_poi_single_flight_and_debounce :
    (∀ s : MapState, s.fetchingPois = true → poiFetchEffect s = (s, false))
    ∧ (∀ (s : MapState) (pla plo la lo : ℚ),
        s.lastPoiCenter = some (.val pla, .val plo) →
        s.playerPos = some (.val la, .val lo) →
        |pla - la| < 1 / 100 → |plo - lo| < 1 / 100 →
        poiFetchEffect s = (s, false))
    ∧ (∀ (s : MapState) (la lo la2 lo2 : ℚ),
        (poiFetchEffect { s with playerPos := some (.val la, .val lo) }).2 = true →
        |la - la2| < 1 / 100 → |lo - lo2| < 1 / 100 →
        poiFetchEffect
          { (poiFetchEffect { s with playerPos := some (.val la, .val lo) }).1 with
            playerPos := some (.val la2, .val lo2) } =
        ({ (poiFetchEffect { s with playerPos := some (.val la, .val lo) }).1 with
            playerPos := some (.val la2, .val lo2) }, false)) := by
  refine ⟨poiFetchEffect_inflight, poiFetchEffect_near_prev, ?_⟩
  intro s la lo la2 lo2 hiss h1 h2
  obtain ⟨-, lat, lon, hp, hs'⟩ := poiFetchEffect_issued _ _ (Prod.ext_iff.mpr ⟨rfl, hiss⟩)
  rw [show ({ s with playerPos := some (.val la, .val lo) } : MapState).playerPos
      = some (.val la, .val lo) from rfl] at hp
  cases hp
  simp only [hs']
  exact poiFetchEffect_near_prev _ la lo la2 lo2 rfl rfl h1 h2

/-- C4 witness: with a fetch in flight the effect issues nothing; and
after one issued query, a second update at the same position issues
nothing — one outbound request for the pair of updates. -/
theorem c4_witness :
    poiFetchEffect { demoState with playerPos := some (.val 0, .val 0), fetchingPois := true }
      = ({ demoState with playerPos := some (.val 0, .val 0), fetchingPois := true }, false)
    ∧ (poiFetchEffect { demoState with playerPos := some (.val 0, .val 0) }).2 = true
    ∧ poiFetchEffect
        { (poiFetchEffect { demoState with playerPos := some (.val 0, .val 0) }).1 with
          playerPos := some (.val 0, .val 0) } =
      ({ (poiFetchEffect { demoState with playerPos := some (.val 0, .val 0) }).1 with
          playerPos := some (.val 0, .val 0) }, false) := by
  refine ⟨c4_poi_single_flight_and_debounce.1 _ rfl, rfl, ?_⟩
  exact c4_poi_single_flight_and_debounce.2.2 demoState 0 0 0 0 rfl (by norm_num) (by norm_num)

/-- C10: the queried center is recorded when the query is issued and is
not rolled back by a failure: after an issued query for the player's
position, both failure modes — the network-error catch and a payload
without a truthy `elements` field — leave the recorded center at the
queried position, clear only the in-flight flag and retain the POI
collection; thereafter any player position within 0.01 degrees of that
center on both axes is suppressed, so the failed query is never reissued
from within the threshold. -/
theorem c10_failed_query_center_not_rolled_back :
    ∀ (s s' : MapState) (la lo : ℚ),
      s.playerPos = some (.val la, .val lo) →
      poiFetchEffect s = (s', true) →
      ((poiCatch s').lastPoiCenter = some (.val la, .val lo)
       ∧ (poiCatch s').pois = s.pois
       ∧ (poiCatch s').fetchingPois = false
       ∧ (∀ qa qo : ℚ, |la - qa| < 1 / 100 → |lo - qo| < 1 / 100 →
           poiFetchEffect { poiCatch s' with playerPos := some (.val qa, .val qo) }
             = ({ poiCatch s' with playerPos := some (.val qa, .val qo) }, false)))
      ∧ (∀ data : JSVal, (data.getF "elements").truthy = false →
          ((poiResponse data s').lastPoiCenter = some (.val la, .val lo)
           ∧ (poiResponse data s').pois = s.pois
           ∧ (poiResponse data s').fetchingPois = false
           ∧ (∀ qa qo : ℚ, |la - qa| < 1 / 100 → |lo - qo| < 1 / 100 →
               poiFetchEffect { poiResponse data s' with playerPos := some (.val qa, .val qo) }
                 = ({ poiResponse data s' with playerPos := some (.val qa, .val qo) }, false)))) := by
  intro s s' la lo hp hiss
  obtain ⟨hf, lat, lon, hp2, hs'⟩ := poiFetchEffect_issued s s' hiss
  rw [hp] at hp2
  cases hp2
  subst hs'
  constructor
  · refine ⟨rfl, rfl, rfl, ?_⟩
    intro qa qo h1 h2
    exact poiFetchEffect_near_prev _ la lo qa qo rfl rfl h1 h2
  · intro data hd
    rw [poiResponse_no_elements data _ hd]
    refine ⟨rfl, rfl, rfl, ?_⟩
    intro qa qo h1 h2
    exact poiFetchEffect_near_prev _ la lo qa qo rfl rfl h1 h2

/-- C10 witness: after an issued query at the origin whose response fails
over the network, an update at the same position issues no request; the
same after a payload without elements. -/
theorem c10_witness :
    (poiFetchEffect { demoState with playerPos := some (.val 0, .val 0) }).2 = true
    ∧ poiFetchEffect
        { poiCatch (poiFetchEffect { demoState with playerPos := some (.val 0, .val 0) }).1 with
          playerPos := some (.val 0, .val 0) }
      = ({ poiCatch (poiFetchEffect { demoState with playerPos := some (.val 0, .val 0) }).1 with
          playerPos := some (.val 0, .val 0) }, false)
    ∧ poiFetchEffect
        { poiResponse .null (poiFetchEffect { demoState with playerPos := some (.val 0, .val 0) }).1 with
          playerPos := some (.val 0, .val 0) }
      = ({ poiResponse .null (poiFetchEffect { demoState with playerPos := some (.val 0, .val 0) }).1 with
          playerPos := some (.val 0, .val 0) }, false) := by
  have h := c10_failed_query_center_not_rolled_back
    { demoState with playerPos := some (.val 0, .val 0) }
    (poiFetchEffect { demoState with playerPos := some (.val 0, .val 0) }).1 0 0 rfl
    (Prod.ext_iff.mpr ⟨rfl, rfl⟩)
  exact ⟨rfl, h.1.2.2.2 0 0 (by norm_num) (by norm_num),
    (h.2 .null rfl).2.2.2 0 0 (by norm_num) (by norm_num)⟩

/-- C9: the one-shot geolocation callbacks — a success carrying a valid
coordinate (both chain values non-NaN numbers) stores the position,
persists it to the last-known-location store and marks `granted`; a
success carrying anything else marks `unavailable` and leaves the player
position untouched; the failure callback maps the provider error to
`denied` exactly when its code strictly equals 1 and to `unavailable`
otherwise, surfacing only that classification. -/
theorem c9_geolocation_classification :
    (∀ (pos : JSVal) (s : MapState) (a b : JSNum),
      (pos.getOpt "coords").getOpt "latitude" = .num a →
      (pos.getOpt "coords").getOpt "longitude" = .num b →
      a ≠ .nan → b ≠ .nan →
      geoSuccess pos s = { s with
        playerPos := some (a, b)
        initialCenter := some (a, b)
        recenterTarget := some (a, b)
        recenterKey := s.recenterKey + 1
        lastLocationStore := some (a, b)
        geoState := .granted })
    ∧ (∀ (pos : JSVal) (s : MapState),
        (∀ a b : JSNum, ¬((pos.getOpt "coords").getOpt "latitude" = .num a ∧
            (pos.getOpt "coords").getOpt "longitude" = .num b ∧ a ≠ .nan ∧ b ≠ .nan)) →
        geoSuccess pos s = { s with geoState := .unavailable })
    ∧ (∀ (err : JSVal) (s : MapState),
        geoError err s = { s with
          geoState := if errCodeIsOne (err.getF "code") then .denied else .unavailable }
        ∧ ((geoError err s).geoState = .denied ↔ errCodeIsOne (err.getF "code") = true)
        ∧ ((geoError err s).geoState = .denied ∨ (geoError err s).geoState = .unavailable)) := by
  refine ⟨?_, ?_, ?_⟩
  · intro pos s a b hla hlo hna hnb
    have ha : a.isNaN = false := (JSNum.isNaN_eq_false_iff a).mpr hna
    have hb : b.isNaN = false := (JSNum.isNaN_eq_false_iff b).mpr hnb
    simp [geoSuccess, hla, hlo, ha, hb]
  · intro pos s h
    cases hla : (pos.getOpt "coords").getOpt "latitude" with
    | num a =>
      cases hlo : (pos.getOpt "coords").getOpt "longitude" with
      | num b =>
        have hnan : a = .nan ∨ b = .nan := by
          by_contra hc
          push_neg at hc
          exact h a b ⟨hla, hlo, hc.1, hc.2⟩
        have hcond : (a.isNaN || b.isNaN) = true := by
          rcases hnan with rfl | rfl
          · rfl
          · cases a <;> rfl
        simp [geoSuccess, hla, hlo, hcond]
      | str v => simp [geoSuccess, hla, hlo]
      | bool v => simp [geoSuccess, hla, hlo]
      | null => simp [geoSuccess, hla, hlo]
      | undefined => simp [geoSuccess, hla, hlo]
      | arr v => simp [geoSuccess, hla, hlo]
      | obj v => simp [geoSuccess, hla, hlo]
    | str v => simp [geoSuccess, hla]
    | bool v => simp [geoSuccess, hla]
    | null => simp [geoSuccess, hla]
    | undefined => simp [geoSuccess, hla]
    | arr v => simp [geoSuccess, hla]
    | obj v => simp [geoSuccess, hla]
  · intro err s
    refine ⟨rfl, ?_, ?_⟩
    · unfold geoError
      cases h : errCodeIsOne (err.getF "code") <;> simp [h]
    · unfold geoError
      cases h : errCodeIsOne (err.getF "code") <;> simp [h]

/-- C9 witness: the demonstration position is accepted and persisted with
state `granted`; a payload missing the longitude yields `unavailable`
with the player position left null; error code 1 yields `denied` and
error code 2 yields `unavailable`. -/
theorem c9_witness :
    geoSuccess demoGeoPos demoState = { demoState with
      playerPos := some (.val 5, .val 6)
      initialCenter := some (.val 5, .val 6)
      recenterTarget := some (.val 5, .val 6)
      recenterKey := 1
      lastLocationStore := some (.val 5, .val 6)
      geoState := .granted }
    ∧ geoSuccess (.obj [("coords", .obj [("latitude", qv 5)])]) demoState
        = { demoState with geoState := .unavailable }
    ∧ (geoSuccess (.obj [("coords", .obj [("latitude", qv 5)])]) demoState).playerPos = none
    ∧ geoError (.obj [("code", qv 1)]) demoState = { demoState with geoState := .denied }
    ∧ geoError (.obj [("code", qv 2)]) demoState = { demoState with geoState := .unavailable } := by
  have h1 := c9_geolocation_classification.1 demoGeoPos demoState (.val 5) (.val 6) rfl rfl
    (by decide) (by decide)
  have h2 := c9_geolocation_classification.2.1 (.obj [("coords", .obj [("latitude", qv 5)])])
    demoState (by
      intro a b hab
      exact JSVal.noConfusion ((rfl :
        ((JSVal.obj [("coords", .obj [("latitude", qv 5)])]).getOpt "coords").getOpt "longitude"
          = .undefined).symm.trans hab.2.1))
  have h3 := (c9_geolocation_classification.2.2 (.obj [("code", qv 1)]) demoState).1
  have h4 := (c9_geolocation_classification.2.2 (.obj [("code", qv 2)]) demoState).1
  refine ⟨h1, h2, by rw [h2]; rfl, h3.trans ?_, h4.trans ?_⟩
  · rw [show errCodeIsOne ((JSVal.obj [("code", qv 1)]).getF "code") = true from by decide]
    rfl
  · rw [show errCodeIsOne ((JSVal.obj [("code", qv 2)]).getF "code") = false from by decide]
    rfl

/-- Over an elements list with no nullish entry the parse pass cannot
throw: it collects, in order, exactly the per-element results. -/
theorem parsePoiElems_eq_of_no_null (els : List JSVal)
    (h : ∀ el ∈ els, el.nullish = false) :
    parsePoiElems els = .ok (els.filterMap fun el =>
      match parsePoiElem el with | .ok p => p | .error _ => none) := by
  induction els with
  | nil => rfl
  | cons el rest ih =>
    have hel : el.nullish = false := h el (List.mem_cons_self el rest)
    have hrest := ih fun x hx => h x (List.mem_cons_of_mem el hx)
    have hok : ∃ p, parsePoiElem el = .ok p := by
      unfold parsePoiElem
      rw [hel]
      simp only [Bool.false_eq_true, if_false]
      split
      · split
        · exact ⟨none, rfl⟩
        · exact ⟨_, rfl⟩
      · exact ⟨none, rfl⟩
    obtain ⟨p, hp⟩ := hok
    simp only [parsePoiElems, hp, hrest, List.filterMap_cons]
    cases p <;> simp

/-- Every parsed POI is classified exactly as the spec's priority-ordered
first-match rule on the element's amenity tag. -/
theorem parsePoiElem_type_eq_specClassify (el : JSVal) (poi : POI)
    (h : parsePoiElem el = .ok (some poi)) :
    poi.type = specClassify ((el.getF "tags").getOpt "amenity") := by
  unfold parsePoiElem at h
  by_cases hn : el.nullish = true
  · simp [hn] at h
  · rw [if_neg hn] at h
    simp only [] at h
    split at h
    · rename_i x y hxy
      split at h
      · simp at h
      · injection h with h2
        injection h2 with h3
        subst h3
        cases h1 : ((el.getF "tags").getOpt "amenity").strictEqStr "hospital" <;>
        cases h2 : ((el.getF "tags").getOpt "amenity").strictEqStr "fuel" <;>
        cases h3 : ((el.getF "tags").getOpt "amenity").strictEqStr "police" <;>
        cases h4 : ((el.getF "tags").getOpt "amenity").strictEqStr "bank" <;>
        cases h5 : ((el.getF "tags").getOpt "amenity").strictEqStr "restaurant" <;>
          simp [specClassify, amenityPriority, List.find?, h1, h2, h3, h4, h5]
    · simp at h

/-- C6 counterexample: per the claim, a response whose elements are a
valid fuel feature and a null entry should yield exactly the parsed fuel
POI (the null has no valid coordinate, so it is "discarded"); the code
instead throws on the null element, lands in the catch, and retains the
previous POI collection. -/
theorem c6_counterexample_null_element_aborts :
    (poiResponse (.obj [("elements", .arr [demoPoiElemFuel, .null])]) demoState).pois
      = demoState.pois
    ∧ parsePoiElem demoPoiElemFuel
        = .ok (some { id := qv 1, type := .gasStation, position := (.val 10, .val 20),
                      name := .str "pump" })
    ∧ (poiResponse (.obj [("elements", .arr [demoPoiElemFuel, .null])]) demoState).pois
        ≠ [{ id := qv 1, type := .gasStation, position := (.val 10, .val 20),
             name := .str "pump" }] := by
  refine ⟨rfl, rfl, ?_⟩
  intro h
  have htypes : ([POIType.bank] : List POIType) = [POIType.gasStation] := by
    calc ([POIType.bank] : List POIType)
        = ((poiResponse (.obj [("elements", .arr [demoPoiElemFuel, .null])])
            demoState).pois).map POI.type := rfl
      _ = [{ id := qv 1, type := .gasStation, position := (.val 10, .val 20),
             name := .str "pump" }].map POI.type := congrArg _ h
      _ = [POIType.gasStation] := rfl
  exact absurd htypes (by decide)

/-- C6 amended: for a POI response whose elements list contains no
null/undefined entry, the parse succeeds; each element's POI is kept
exactly when its coordinate validates, in the response's original order;
each kept POI's category is the first matching amenity tag in the fixed
priority order hospital, fuel, police, bank, restaurant, defaulting to
shop; the kept list is truncated to at most 500 entries (its length is
the minimum of 500 and the parsed count, so 501 valid features yield
exactly the first 500) and replaces the previous collection wholesale,
clearing the in-flight flag.  (A null element instead aborts the whole
parse and the previous collection is retained.) -/
theorem c6_amended_poi_classification_truncation (s : MapState) (els : List JSVal)
    (hnn : ∀ el ∈ els, el.nullish = false) :
    ∃ ps : List POI,
      parsePoiElems els = .ok ps
      ∧ poiResponse (.obj [("elements", .arr els)]) s
          = { s with pois := ps.take 500, fetchingPois := false }
      ∧ ps = els.filterMap (fun el =>
          match parsePoiElem el with | .ok p => p | .error _ => none)
      ∧ (ps.take 500).length = min 500 ps.length
      ∧ (ps.take 500).Sublist ps
      ∧ (∀ el ∈ els, ∀ poi : POI, parsePoiElem el = .ok (some poi) →
          poi.type = specClassify ((el.getF "tags").getOpt "amenity")) := by
  refine ⟨els.filterMap (fun el =>
      match parsePoiElem el with | .ok p => p | .error _ => none),
    parsePoiElems_eq_of_no_null els hnn, ?_, rfl, List.length_take ..,
    List.take_sublist .., fun el _ poi hp => parsePoiElem_type_eq_specClassify el poi hp⟩
  unfold poiResponse
  simp [parsePoiElems_eq_of_no_null els hnn, JSVal.truthy, JSVal.getF, List.lookup]

/-- C6 witness: a response with a fuel node, a coordinate-less element and
a center-only way yields exactly the fuel POI and the default-shop POI,
in order, replacing the previous collection. -/
theorem c6_witness :
    poiResponse
        (.obj [("elements", .arr [demoPoiElemFuel, demoPoiElemBad, demoPoiElemCenter])])
        demoState
      = { demoState with
          pois := [{ id := qv 1, type := .gasStation, position := (.val 10, .val 20),
                     name := .str "pump" },
                   { id := qv 2, type := .shop, position := (.val 30, .val 40),
                     name := .undefined }]
          fetchingPois := false } := by
  obtain ⟨ps, -, hresp, hps, -, -, -⟩ :=
    c6_amended_poi_classification_truncation demoState
      [demoPoiElemFuel, demoPoiElemBad, demoPoiElemCenter] (by decide)
  rw [hresp, hps]
  rfl
